import Mathlib

/-!
Shallow embedding of `src/App.tsx` from the react-vite-ts-boilerplate
repository. The component is a counter: `useState(0)` local state, a button
whose `onClick` runs `setCount((count) => count + 1)`, and otherwise static
JSX markup (two logo links, a heading, two paragraphs). JSX elements are
modelled as a tree of nodes; the number interpolated into `count is {count}`
is rendered through decimal notation, modelled by `Nat.repr`.
-/

/-- Event handlers occurring in `App.tsx`. The only one is the button's
`onClick`, the closure `() => setCount((count) => count + 1)`. -/
inductive Handler where
  | setCountSucc
deriving DecidableEq, Repr

/-- Semantics of a handler as a state update on the single `count` state:
`setCountSucc` applies the updater `(count) => count + 1`. -/
def Handler.run : Handler → Nat → Nat
  | .setCountSucc, n => n + 1

/-- A JSX attribute: either a plain string-valued attribute (`className`,
`href`, `target`, `src`, `alt`) or an `onClick` handler. -/
inductive JsxAttr where
  | attr (name value : String)
  | onClick (h : Handler)
deriving DecidableEq, Repr

/-- Rendered markup: an element with tag, attributes and children, a text
node, or a JSX fragment. -/
inductive Node where
  | element (tag : String) (attrs : List JsxAttr) (children : List Node)
  | text (s : String)
  | fragment (children : List Node)
deriving Repr

/-- Children of a node (a text node has none). -/
def childrenOf : Node → List Node
  | .element _ _ cs => cs
  | .fragment cs => cs
  | .text _ => []

/-- The `k`-th child of a node, if present. -/
def childAt (k : Nat) (n : Node) : Option Node :=
  (childrenOf n)[k]?

mutual
/-- Number of `button` elements in a tree. -/
def countButtons : Node → Nat
  | .text _ => 0
  | .element tag _ cs => (if tag = "button" then 1 else 0) + countButtonsList cs
  | .fragment cs => countButtonsList cs
def countButtonsList : List Node → Nat
  | [] => 0
  | c :: cs => countButtons c + countButtonsList cs
end

mutual
/-- All `button` elements of a tree, in document order. -/
def buttonsOf : Node → List Node
  | .text _ => []
  | .element tag attrs cs =>
      (if tag = "button" then [Node.element tag attrs cs] else []) ++ buttonsList cs
  | .fragment cs => buttonsList cs
def buttonsList : List Node → List Node
  | [] => []
  | c :: cs => buttonsOf c ++ buttonsList cs
end

mutual
/-- Concatenated text content of a tree, as the browser displays it. -/
def textContent : Node → String
  | .text s => s
  | .element _ _ cs => textContentList cs
  | .fragment cs => textContentList cs
def textContentList : List Node → String
  | [] => ""
  | [c] => textContent c
  | c :: cs => textContent c ++ textContentList cs
end

/-- The `onClick` handler attached to a node, if any. -/
def onClickOf : Node → Option Handler
  | .element _ attrs _ =>
      attrs.findSome? (fun a =>
        match a with
        | .onClick h => some h
        | .attr _ _ => none)
  | _ => none

/-- Whether an attribute is a `className` (styling) attribute. -/
def JsxAttr.isClassName : JsxAttr → Bool
  | .attr "className" _ => true
  | _ => false

mutual
/-- A tree with every `className` attribute removed, leaving structure,
non-styling attributes, handlers and text untouched. -/
def stripClass : Node → Node
  | .text s => .text s
  | .element tag attrs cs =>
      .element tag (attrs.filter (fun a => ! a.isClassName)) (stripClassList cs)
  | .fragment cs => .fragment (stripClassList cs)
def stripClassList : List Node → List Node
  | [] => []
  | c :: cs => stripClass c :: stripClassList cs
end

namespace App

/-- The `vite.svg` asset imported as `viteLogo` (`import viteLogo from
'/vite.svg'`), modelled by its module specifier, which is also its public
URL. -/
def viteLogo : String := "/vite.svg"

/-- The `react.svg` asset imported as `reactLogo` (`import reactLogo from
'@/assets/react.svg'`; the `@/` alias resolves to `src/`), modelled by the
resolved asset path. -/
def reactLogo : String := "src/assets/react.svg"

/-- Initial value of the `count` state: `useState(0)`. -/
def initialCount : Nat := 0

/-- The state update performed by the button's click handler,
`setCount((count) => count + 1)`. -/
def click (count : Nat) : Nat :=
  Handler.run Handler.setCountSucc count

/-- The JSX tree returned by `App`, abstracted over the text that the
interpolation `{count}` produces inside the button label. -/
def renderWith (countText : String) : Node :=
  .element "div"
    [.attr "className" "flex flex-col justify-center items-center min-h-screen gap-6"]
    [ .element "div" [.attr "className" "flex gap-4"]
        [ .element "a" [.attr "href" "https://vite.dev", .attr "target" "_blank"]
            [ .element "img"
                [.attr "src" viteLogo, .attr "className" "logo", .attr "alt" "Vite logo"]
                [] ],
          .element "a" [.attr "href" "https://react.dev", .attr "target" "_blank"]
            [ .element "img"
                [.attr "src" reactLogo, .attr "className" "logo react", .attr "alt" "React logo"]
                [] ] ],
      .element "h1" [.attr "className" "text-3xl font-bold"] [.text "Vite + React"],
      .element "div" [.attr "className" "card p-4 rounded shadow-lg flex flex-col items-center gap-4"]
        [ .element "button"
            [.attr "className" "px-4 py-2 bg-blue-500 text-white rounded hover:bg-blue-600",
             .onClick Handler.setCountSucc]
            [.text "count is ", .text countText],
          .element "p" []
            [.text "Edit ", .element "code" [] [.text "src/App.tsx"],
             .text " and save to test HMR"] ],
      .element "p" [.attr "className" "read-the-docs text-gray-500"]
        [.text "Click on the Vite and React logos to learn more"] ]

/-- The output of `App` for a given `count`: the JSX tree with the count
interpolated in decimal into the button label. -/
def render (count : Nat) : Node :=
  renderWith (Nat.repr count)

/-- Ambient resources a frontend component could in principle consult:
network responses, persisted storage, and CLI input. `App.tsx` performs no
network call, reads no storage and takes no CLI input. -/
structure Env where
  network : String → Option String
  storage : String → Option String
  cliArgs : List String

/-- Rendering in an ambient environment. `App`'s body contains no fetch, no
storage access and no CLI read, so the translation does not consult `e`. -/
def renderIn (_e : Env) (count : Nat) : Node :=
  render count

/-- Stringification of the number interpolated by `{count}`; a total JS
operation, so it never produces an error. -/
def jsNumToString (n : Nat) : Except String String :=
  .ok (Nat.repr n)

/-- The click handler with an explicit error channel: its body
`setCount((count) => count + 1)` contains no throw and no failing
primitive. -/
def clickE (n : Nat) : Except String Nat :=
  .ok (click n)

/-- Rendering with an explicit error channel: the body of `App` is pure
JSX construction, whose only computation is the total stringification of
`count`; no branch of it can raise. -/
def renderE (count : Nat) : Except String Node := do
  let s ← jsNumToString count
  pure (renderWith s)

/-- UI events the component reacts to: the only wired-up event in `App.tsx`
is a click on the counter button. -/
inductive Event where
  | click
deriving DecidableEq, Repr

/-- Transition relation of the app: the whole mutable state is the single
local `count`, and the only transition is the button click running
`setCount((count) => count + 1)`. -/
inductive Step : Nat → Event → Nat → Prop
  | click (n : Nat) : Step n Event.click (App.click n)

/-- State after `k` successive clicks starting from the initial render. -/
def clicks : Nat → Nat
  | 0 => initialCount
  | k + 1 => click (clicks k)

end App

namespace ViteTemplate

/-- Modelled from the spec: the spec states the source is "the default
starter template shipped by a scaffolding tool, unmodified beyond trivial
styling". The template's `App` is not part of this repository; this models
its counter: `useState(0)`. -/
def initialCount : Nat := 0

/-- Modelled from the spec: the default template's click handler
`() => setCount((count) => count + 1)`, identical to the repository's. -/
def click (count : Nat) : Nat :=
  Handler.run Handler.setCountSucc count

/-- Modelled from the spec: the default Vite React starter template's `App`
output. Its root is a JSX fragment; the logo `div`, `h1` and `button` carry
no `className`; the card `div` and final paragraph have the template's
classes. The `reactLogo` import (`./assets/react.svg`) resolves to the same
asset as the repository's aliased import. -/
def render (count : Nat) : Node :=
  .fragment
    [ .element "div" []
        [ .element "a" [.attr "href" "https://vite.dev", .attr "target" "_blank"]
            [ .element "img"
                [.attr "src" App.viteLogo, .attr "className" "logo", .attr "alt" "Vite logo"]
                [] ],
          .element "a" [.attr "href" "https://react.dev", .attr "target" "_blank"]
            [ .element "img"
                [.attr "src" App.reactLogo, .attr "className" "logo react", .attr "alt" "React logo"]
                [] ] ],
      .element "h1" [] [.text "Vite + React"],
      .element "div" [.attr "className" "card"]
        [ .element "button" [.onClick Handler.setCountSucc]
            [.text "count is ", .text (Nat.repr count)],
          .element "p" []
            [.text "Edit ", .element "code" [] [.text "src/App.tsx"],
             .text " and save to test HMR"] ],
      .element "p" [.attr "className" "read-the-docs"]
        [.text "Click on the Vite and React logos to learn more"] ]

end ViteTemplate

/-!
Theorems settling the claims.
-/

/-- C1: for every counter value `n`, the handler attached to the rendered
counter button is the `setCount((count) => count + 1)` closure, and running
it transitions the count state from `n` to `n + 1`. -/
theorem click_handler_increments (n : Nat) :
    (buttonsOf (App.render n)).map onClickOf = [some Handler.setCountSucc] ∧
    App.click n = n + 1 :=
  ⟨rfl, rfl⟩

/-- C2: a click changes only the count: the two logo links, the heading and
the two paragraphs in the rendered output are identical before and after a
click, for every starting count. -/
theorem click_changes_only_count (n : Nat) :
    (childAt 0 (App.render (App.click n))).bind (childAt 0) =
      (childAt 0 (App.render n)).bind (childAt 0) ∧
    (childAt 0 (App.render (App.click n))).bind (childAt 1) =
      (childAt 0 (App.render n)).bind (childAt 1) ∧
    childAt 1 (App.render (App.click n)) = childAt 1 (App.render n) ∧
    (childAt 2 (App.render (App.click n))).bind (childAt 1) =
      (childAt 2 (App.render n)).bind (childAt 1) ∧
    childAt 3 (App.render (App.click n)) = childAt 3 (App.render n) :=
  ⟨rfl, rfl, rfl, rfl, rfl⟩

/-- C3: `App` has no error paths: for every count, both rendering and the
click handler, run with an explicit error channel, return `ok` — they are
total and never reach an error branch. -/
theorem render_and_click_total (n : Nat) :
    App.renderE n = Except.ok (App.render n) ∧
    App.clickE n = Except.ok (App.click n) :=
  ⟨rfl, rfl⟩

/-- C4: the rendered output is a deterministic function of the count alone:
in any ambient environment it equals the pure render of that count, and no
two environments (network, storage, CLI) can make outputs differ. -/
theorem render_deterministic_env_independent (e₁ e₂ : App.Env) (n : Nat) :
    App.renderIn e₁ n = App.render n ∧ App.renderIn e₁ n = App.renderIn e₂ n :=
  ⟨rfl, rfl⟩

/-- C5: for every count `n`, the rendered tree contains exactly one button,
and that button's label is the text `count is ` followed by `n` in
decimal. -/
theorem single_button_with_count_label (n : Nat) :
    countButtons (App.render n) = 1 ∧
    (buttonsOf (App.render n)).map textContent = ["count is " ++ Nat.repr n] :=
  ⟨rfl, rfl⟩

/-- C6 counterexample: at count 0 the repository's render and the default
template's render still differ after all `className` (styling) attributes
are removed — the template's root is a fragment while the repository wraps
everything in a layout `div` — so the two do not differ only in styling
attributes. -/
theorem render_differs_from_template_beyond_class :
    ¬ stripClass (App.render 0) = stripClass (ViteTemplate.render 0) :=
  fun h => Node.noConfusion h

/-- C6 amended: the repository's `App` and the default template's `App`
have the same initial count `0` and the same increment-by-one click update;
their rendered markup differs only in styling — added `className`
attributes and a styling wrapper `div` in place of the template's root
fragment — leaving tags, non-styling attributes, the click handler and all
text identical, so the counter's state machine is unaffected. -/
theorem template_state_machine_equiv :
    App.initialCount = ViteTemplate.initialCount ∧
    (∀ n, App.click n = ViteTemplate.click n) ∧
    (∀ n, stripClass (Node.fragment (childrenOf (App.render n))) =
      stripClass (ViteTemplate.render n)) :=
  ⟨rfl, fun _ => rfl, fun _ => rfl⟩

/-- C7: there is no concurrency: the entire mutable state is the single
local count, and the app's transition relation is deterministic and
functional — a step from `s` exists exactly to `s + 1`, so no two
operations can interleave on shared state. -/
theorem step_single_state_deterministic (s : Nat) (e : App.Event) (t : Nat) :
    App.Step s e t ↔ t = s + 1 := by
  constructor
  · intro h
    cases h
    rfl
  · intro h
    subst h
    cases e
    exact App.Step.click s

/-- C8: the counter starts at 0: on the first render, before any click, the
count state is 0 and the button label reads `count is 0`. -/
theorem initial_render_count_zero :
    App.initialCount = 0 ∧
    (buttonsOf (App.render App.initialCount)).map textContent = ["count is 0"] :=
  ⟨rfl, rfl⟩

/-- C9: after any sequence of `k` clicks from the initial state the count
equals `k`, and along every step of the click relation the count never
decreases (hence stays non-negative, being a natural number). -/
theorem clicks_count_invariant :
    (∀ k, App.clicks k = k) ∧
    (∀ (s : Nat) (e : App.Event) (t : Nat), App.Step s e t → s ≤ t) := by
  constructor
  · intro k
    induction k with
    | zero => rfl
    | succ k ih => simp [App.clicks, App.click, Handler.run, ih]
  · intro s e t h
    cases h
    exact Nat.le_succ s

/-- Witness for C9 at a concrete input: two clicks from the initial state
give count 2, and the concrete step from 2 to 3 does not decrease the
count. -/
theorem clicks_count_invariant_witness :
    App.clicks 2 = 2 ∧ (2 : Nat) ≤ 3 :=
  ⟨clicks_count_invariant.1 2,
   clicks_count_invariant.2 2 App.Event.click 3 (App.Step.click 2)⟩
